import Mathlib

/-!
Verification of the Sisyphus LLM browser agent against its specification.

The development shallowly embeds the Python sources:
  - src/agent.py                (LLMBrowserAgent: validation, execution, task loop,
                                 conversation management, feedback)
  - src/browser/scanning.py     (ScanningMixin: scan, _scan_type, _calculate_score,
                                 stable-id registry)
  - src/browser/interaction.py  (InteractionMixin.click)
  - src/ui/backend/server.py    (AgentUIServer.execute_task busy guard)

Driver probes (Playwright calls) are modelled by their outcomes: each scanned
node carries the outcome of its visibility / label / stable-id probes, and
fallible driver calls are an `Except String` value supplied as input.
Python floats in the scoring heuristic are modelled as rationals; the final
clamp `max(0.0, min(1.0, score))` makes the proved bounds independent of
rounding.  Machine integers do not overflow in any modelled routine.
-/

namespace Sisyphus

/-- Error taxonomy of `agent.ErrorType` (agent.py lines 44-50). -/
inductive ErrorType
  | validation
  | overlay
  | timeout
  | stale
  | unknown
deriving Repr, DecidableEq

/-- `agent.ExecutionResult` (agent.py lines 53-62): structured result of one
command execution. -/
structure ExecutionResult where
  success : Bool
  output : String
  command : String
  pageChanged : Bool
  errorType : Option ErrorType
  pageTitle : Option String
  pageUrl : Option String
deriving Repr, DecidableEq

/-- One entry of `self.browser.element_map` as written by
`ScanningMixin._update_element_map` (scanning.py lines 709-718): the label,
display type string, stable id and score stored for a display index. -/
structure ElemMeta where
  label : String
  etype : String
  stableId : String
  score : ℚ
deriving Repr, DecidableEq

/-- Python truthiness of an optional string (`if url_before:` in agent.py
line 453): `None` and the empty string are falsy. -/
def pyTruthy : Option String → Bool
  | none => false
  | some s => !s.isEmpty

/-- `pat` occurs as a substring of `s` (Python `pat in s` for nonempty
`pat`). -/
def strContains (s pat : String) : Bool :=
  (s.splitOn pat).length > 1

/-- ASCII lowercasing of one character (the command names and display types
lowered by the agent are ASCII). -/
def asciiLower (c : Char) : Char :=
  if 65 ≤ c.toNat ∧ c.toNat ≤ 90 then Char.ofNat (c.toNat + 32) else c

/-- Python `str.lower()` on the ASCII strings the agent lowercases. -/
def strLower (s : String) : String :=
  ⟨s.data.map asciiLower⟩

/-- The numeric value of a decimal digit character, if it is one. -/
def digitVal? (c : Char) : Option Nat :=
  if 48 ≤ c.toNat ∧ c.toNat ≤ 57 then some (c.toNat - 48) else none

/-- Accumulate a decimal numeral; `none` on any non-digit. -/
def parseDigitsAux : List Char → Nat → Option Nat
  | [], acc => some acc
  | c :: rest, acc =>
    match digitVal? c with
    | none => none
    | some d => parseDigitsAux rest (acc * 10 + d)

/-- Python `int(s)` on an optionally-signed decimal numeral (`None` models
the raised `ValueError`); the whitespace and underscore forms accepted by
Python do not occur in the modelled call sites. -/
def parseInt? (s : String) : Option Int :=
  match s.data with
  | [] => none
  | c :: ds =>
    if c = Char.ofNat 45 then
      match ds with
      | [] => none
      | _ :: _ => (parseDigitsAux ds 0).map (fun n => -(n : Int))
    else (parseDigitsAux (c :: ds) 0).map (fun n => (n : Int))

/-! ## Element scoring (`ScanningMixin._calculate_score`, scanning.py 535-602) -/

/-- `IMPORTANT_LINK_KEYWORDS['navigation']` (scanning.py line 82). -/
def navigationKeywords : List String :=
  ["home", "about", "contact", "services", "products", "menu", "login",
   "signup", "register"]

/-- `IMPORTANT_LINK_KEYWORDS['actions']` (scanning.py line 83). -/
def actionsKeywords : List String :=
  ["create", "new", "add", "edit", "delete", "save", "submit", "continue",
   "next", "start"]

/-- `IMPORTANT_LINK_KEYWORDS['content']` (scanning.py line 84). -/
def contentKeywords : List String :=
  ["article", "post", "page", "category", "section", "view", "read", "more"]

/-- The 0.15 boost of one keyword category: the inner loop breaks after the
first matching keyword, so each category contributes at most once. -/
def categoryBoost (labelLower : String) (kws : List String) : ℚ :=
  if kws.any (fun k => strContains labelLower k) then 0.15 else 0

/-- `type_scores.get(display_type, 0.5)` (scanning.py lines 548-556). -/
def typeScore (displayType : String) : ℚ :=
  if displayType = "BUTTON" then 0.8
  else if displayType = "INPUT" then 0.8
  else if displayType = "SELECT" then 0.7
  else if displayType = "CHECKBOX" then 0.6
  else if displayType = "LINK" then 0.4
  else if displayType = "OTHER" then 0.3
  else 0.5

/-- Inputs of `_calculate_score`, with every driver probe replaced by its
outcome: `isPrimary` is the result of `_is_primary_action` (which returns
`False` on its own exceptions), `hasAriaLabel` the truthiness of the
aria-label attribute, `yPos` the bounding-rect top (`none` when the inner
`try` fails), `href` the href attribute, and `raises` whether the body of the
outer `try` raises (scanning.py line 601 then returns 0.5). -/
structure ScoreInput where
  displayType : String
  label : String
  tag : String
  smartMode : Bool
  isPrimary : Bool
  hasAriaLabel : Bool
  yPos : Option Int
  href : Option String
  raises : Bool
deriving Repr, DecidableEq

/-- `ScanningMixin._calculate_score` (scanning.py lines 535-602), translated
step by step: type base score, primary-action boost, keyword and label-length
boosts, accessibility boost, position boost, navigation-spam penalty, then
the clamp `max(0.0, min(1.0, score))`; the surrounding `except` returns
0.5. -/
def calculateScore (inp : ScoreInput) : ℚ :=
  if inp.raises then 0.5
  else
    let s0 := typeScore inp.displayType
    let s1 := if inp.isPrimary then s0 + 0.2 else s0
    let labelLower := strLower inp.label
    let s2 :=
      if !inp.label.isEmpty && !inp.label.startsWith "Unnamed" then
        let kw :=
          if inp.smartMode then
            categoryBoost labelLower navigationKeywords +
            categoryBoost labelLower actionsKeywords +
            categoryBoost labelLower contentKeywords
          else 0
        let lenBoost :=
          if 5 < inp.label.length ∧ inp.label.length < 30 then (0.1 : ℚ) else 0
        s1 + kw + lenBoost
      else s1
    let s3 := if inp.hasAriaLabel then s2 + 0.1 else s2
    let s4 :=
      match inp.yPos with
      | some y => if y < 1000 then s3 + 0.1 else s3
      | none => s3
    let s5 :=
      if inp.tag = "a" ∧ inp.smartMode then
        let h := inp.href.getD ""
        if h = "/" ∨ h = "#" ∨ h = "" ∨ h.startsWith "javascript:" then
          s4 - 0.3
        else s4
      else s4
    max 0 (min 1 s5)

/-! ## Page scanning and the stable-id registry
(`ScanningMixin.scan` / `_scan_type`, scanning.py 93-267) -/

/-- One DOM node encountered by `_scan_type`, with each driver probe replaced
by its outcome: `visible` is the combined result of `is_visible()` and
`_is_potentially_visible`, `stableId` the result of `_generate_stable_id`,
`label` the result of `_extract_advanced_label`, and `etype` the display type
from `_classify_type`. -/
structure ScannedNode where
  visible : Bool
  stableId : String
  label : String
  etype : String
deriving Repr, DecidableEq

/-- The label filter of scanning.py lines 215-218: an empty label or one
starting with "Unnamed". -/
def labelMissing (e : ScannedNode) : Bool :=
  e.label.isEmpty || e.label.startsWith "Unnamed"

/-- The persistent scan state: `self._element_registry` restricted to the
index recorded per stable id (scanning.py lines 237-242 read only `.index`
from a registry entry) together with `self._next_index`.  The association
list is consed on update, so `List.lookup` sees the latest binding exactly
like a Python dict assignment. -/
structure Registry where
  entries : List (String × Nat)
  nextIndex : Nat
deriving Repr, DecidableEq

/-- The index assigned to a surviving node: the registry index of its stable
id when one exists, `nextIndex` otherwise (scanning.py lines 237-242). -/
def assignedIndex (e : ScannedNode) (reg : Registry) : Nat :=
  (reg.entries.lookup e.stableId).getD reg.nextIndex

/-- The registry after processing a surviving node: the entry for its stable
id is (re)written (scanning.py line 258) and `nextIndex` advances only when
the id was fresh (line 242). -/
def updatedRegistry (e : ScannedNode) (reg : Registry) : Registry :=
  ⟨(e.stableId, assignedIndex e reg) :: reg.entries,
   if (reg.entries.lookup e.stableId).isSome then reg.nextIndex
   else reg.nextIndex + 1⟩

/-- The element loop of `_scan_type`, run over the concatenation of the
per-type node lists exactly as `scan` iterates `scan_types` (scanning.py
lines 131-138): each node is tagged with the `elem_type` being scanned.
Skip conditions in source order: invisible node (lines 196-203), stable id
already seen in this scan call (lines 207-209, the id is added to the seen
set before the label check), missing label on a non-links pass (lines
215-218).  A surviving node gets `assignedIndex` and the registry entry is
(re)written.  Returns the (stableId, displayIndex) assignments in encounter
order, the seen set, and the final registry. -/
def scanLoop : List (String × ScannedNode) → List String → Registry →
    List (String × Nat) × List String × Registry
  | [], seen, reg => ([], seen, reg)
  | (kind, e) :: rest, seen, reg =>
    if e.visible = false then scanLoop rest seen reg
    else if e.stableId ∈ seen then scanLoop rest seen reg
    else if labelMissing e = true ∧ kind ≠ "links" then
      scanLoop rest (e.stableId :: seen) reg
    else
      ((e.stableId, assignedIndex e reg) ::
         (scanLoop rest (e.stableId :: seen) (updatedRegistry e reg)).1,
       (scanLoop rest (e.stableId :: seen) (updatedRegistry e reg)).2)

/-- One `scan()` call (scanning.py lines 114-162): the seen set starts empty
for each call (line 129) while the registry persists across calls. -/
def scanCall (page : List (String × ScannedNode)) (reg : Registry) :
    List (String × Nat) × Registry :=
  let r := scanLoop page [] reg
  (r.1, r.2.2)

/-- The scan filters accepted by `scan` (`SELECTORS` keys, scanning.py
lines 33-78). -/
def scanKinds : List String :=
  ["buttons", "inputs", "selects", "checkboxes", "links", "other_inputs"]

/-- `_scan_type` with its outer `try` (scanning.py lines 185-267): the page
query for one element type either raises (`Except.error`) — caught at line
264, yielding the empty element list for that type — or returns the nodes,
which are then processed by the element loop. -/
def scanTypeRun (kind : String) (q : Except String (List ScannedNode))
    (seen : List String) (reg : Registry) :
    List (String × Nat) × List String × Registry :=
  match q with
  | .error _ => ([], seen, reg)
  | .ok elems => scanLoop (elems.map (fun e => (kind, e))) seen reg

/-- The `for elem_type in scan_types` loop of `scan` (scanning.py lines
131-138), threading the shared seen set and registry through the per-type
runs. -/
def scanKindsRun : List String → (String → Except String (List ScannedNode)) →
    List String → Registry → List (String × Nat) × List String × Registry
  | [], _, seen, reg => ([], seen, reg)
  | kind :: rest, queries, seen, reg =>
    let r1 := scanTypeRun kind (queries kind) seen reg
    let r2 := scanKindsRun rest queries r1.2.1 r1.2.2
    (r1.1 ++ r2.1, r2.2)

/-- The body of `scan` inside its outer `try` (scanning.py lines 114-162):
filter validation (an unknown filter returns `False` normally, lines
116-119), choice of scan types (lines 122-125), and the per-type collection
loop.  The return value is the `try` outcome: any uncaught exception would
surface as `Except.error`. -/
def scanBody : Option String → (String → Except String (List ScannedNode)) →
    Registry → Except String (Bool × List (String × Nat) × Registry)
  | some f, queries, reg =>
    if f ≠ "" ∧ f ≠ "all" ∧ f ∉ scanKinds then .ok (false, [], reg)
    else if f ≠ "" ∧ f ≠ "all" then
      .ok (true, (scanKindsRun [f] queries [] reg).1,
           (scanKindsRun [f] queries [] reg).2.2)
    else
      .ok (true, (scanKindsRun scanKinds queries [] reg).1,
           (scanKindsRun scanKinds queries [] reg).2.2)
  | none, queries, reg =>
    .ok (true, (scanKindsRun scanKinds queries [] reg).1,
         (scanKindsRun scanKinds queries [] reg).2.2)

/-- `scan` with its outer `except` (scanning.py lines 164-169): a raised
body is converted to a normal `False` return. -/
def scanRun (filterType : Option String)
    (queries : String → Except String (List ScannedNode)) (reg : Registry) :
    Bool × List (String × Nat) × Registry :=
  match scanBody filterType queries reg with
  | .ok r => r
  | .error _ => (false, [], reg)

/-! ## Click (`InteractionMixin.click`, interaction.py 17-59) -/

/-- Outcome of one click attempt once the element is found: both driver
calls succeed, `scroll_into_view_if_needed` raises (1 driver operation
performed), or the scroll succeeds and `element.click` raises (2 driver
operations performed). -/
inductive AttemptOutcome
  | ok
  | scrollRaises
  | clickRaises
deriving Repr, DecidableEq

/-- Driver operations performed by one attempt with the given outcome. -/
def attemptOps : AttemptOutcome → Nat
  | .ok => 2
  | .scrollRaises => 1
  | .clickRaises => 2

/-- The retry loop of `click` (interaction.py lines 33-59): at most
`retries + 1` attempts run; each attempt re-resolves the element
(`found k`), returns `False` immediately when it is absent, performs the
scroll and click driver operations otherwise, and on an exception moves to
the next attempt until the attempts are exhausted.  Returns the result and
the total number of driver operations (scroll-into-view and click calls)
performed. -/
def clickAttempts : Nat → Nat → (Nat → Bool) → (Nat → AttemptOutcome) →
    Bool × Nat
  | 0, _, _, _ => (false, 0)
  | n + 1, k, found, outcome =>
    if found k = false then (false, 0)
    else
      match outcome k with
      | .ok => (true, 2)
      | .scrollRaises =>
        let r := clickAttempts n (k + 1) found outcome
        (r.1, 1 + r.2)
      | .clickRaises =>
        let r := clickAttempts n (k + 1) found outcome
        (r.1, 2 + r.2)

/-- `InteractionMixin.click` with its default of 2 retries: the loop starts
at attempt 0 and runs while `attempt <= retries`. -/
def clickRun (retries : Nat) (found : Nat → Bool)
    (outcome : Nat → AttemptOutcome) : Bool × Nat :=
  clickAttempts (retries + 1) 0 found outcome

/-! ## Command validation and execution
(`LLMBrowserAgent._validate_command` / `_execute_command`, agent.py 341-563) -/

/-- The element-targeted commands of agent.py lines 359-360. -/
def elementCommands : List String :=
  ["type", "click", "hover", "scroll_to", "double_click", "right_click",
   "select", "check", "uncheck", "info"]

/-- Every name registered by `build_command_registry` (commands/registry.py
COMMAND_SPECS plus aliases), the key set of `self.commands`. -/
def knownCommands : List String :=
  ["go", "refresh", "reload", "back", "forward", "home", "url", "title",
   "history", "nav_history", "wait_load", "click", "double_click",
   "dblclick", "right_click", "type", "press", "hover", "select", "check",
   "uncheck", "scroll_to", "scan", "info", "stats", "help", "new_tab",
   "close_tab", "switch_tab", "tabs"]

/-- The type/text checks performed once the catalog lookup resolved (agent.py
lines 371-387): an absent index fails (with the empty-catalog message when
nothing was scanned); a resolved element must have a text-entry display type
for `type`, which additionally requires a text argument. -/
def elementMetaCheck (cmd : String) :
    Option ElemMeta → List (Int × ElemMeta) → List String → Bool × String
  | none, emap, _ =>
    if emap.isEmpty then (false, "No elements scanned")
    else (false, "Element not found")
  | some meta, _, rest =>
    if cmd = "type" then
      if strLower meta.etype ∉ ["input", "textarea"] then
        (false, "Cannot type into this element type")
      else if rest = [] then (false, "type requires text")
      else (true, "")
    else (true, "")

/-- The integer-parse step of the element-command validation (agent.py lines
366-369). -/
def elementIdxCheck (cmd : String) (emap : List (Int × ElemMeta)) :
    Option Int → List String → Bool × String
  | none, _ => (false, "First argument must be element number")
  | some idx, rest => elementMetaCheck cmd (emap.lookup idx) emap rest

/-- The argument-presence step of the element-command validation (agent.py
lines 363-364). -/
def elementArgsCheck (cmd : String) (emap : List (Int × ElemMeta)) :
    List String → Bool × String
  | [] => (false, "requires element number")
  | a :: rest => elementIdxCheck cmd emap (parseInt? a) rest

/-- The element-command validation block of `_validate_command` (agent.py
lines 359-387), entered only for element-targeted commands. -/
def elementCheck (cmd : String) (args : List String)
    (emap : List (Int × ElemMeta)) : Bool × String :=
  if cmd ∈ elementCommands then elementArgsCheck cmd emap args
  else (true, "")

/-- `LLMBrowserAgent._validate_command` (agent.py lines 341-392) on
already-split command parts: known-command check, the element-command block,
and the URL check for `go`.  Returns the `(is_valid, error_msg)` pair. -/
def validateCommand : List String → List (Int × ElemMeta) → Bool × String
  | [], _ => (false, "Empty command")
  | c :: args, emap =>
    let cmd := strLower c
    if cmd ∉ knownCommands then (false, "Unknown command")
    else if (elementCheck cmd args emap).1 = false then
      elementCheck cmd args emap
    else if cmd = "go" ∧ args = [] then (false, "go requires URL")
    else (true, "")

/-- Helper building the failure `ExecutionResult` of a driver exception in
`_execute_command` (agent.py lines 537-563): classify by message sniffing
(intercept / timeout / not attached / detached). -/
def classifyError (msg : String) : ErrorType :=
  let m := strLower msg
  if strContains m "intercept" then .overlay
  else if strContains m "timeout" then .timeout
  else if strContains m "not attached" || strContains m "detached" then .stale
  else .unknown

/-- `LLMBrowserAgent._execute_command` (agent.py lines 394-563), with the
driver (the bound methods in `self.commands`) abstracted as an oracle that
either returns or raises.  `urlBefore` is the pre-execution URL read
(`None` when the read raises), `ctxAfter` the `(title, url)` page context
read after execution.  The second component counts `self.commands[cmd]`
invocations: validation failure returns before any, the `title`/`url`
branches perform none, every other branch performs exactly one. -/
def executeCommand (parts : List String) (emap : List (Int × ElemMeta))
    (urlBefore : Option String) (ctxAfter : Option String × Option String)
    (driver : String → List String → Except String Unit) :
    ExecutionResult × Nat :=
  let cmdStr := String.intercalate " " parts
  let v := validateCommand parts emap
  if v.1 = false then
    ({ success := false, output := v.2, command := cmdStr,
       pageChanged := false, errorType := some .validation,
       pageTitle := ctxAfter.1, pageUrl := ctxAfter.2 }, 0)
  else
    match parts with
    | [] =>
      ({ success := false, output := "Empty command", command := cmdStr,
         pageChanged := false, errorType := some .validation,
         pageTitle := ctxAfter.1, pageUrl := ctxAfter.2 }, 0)
    | c :: args =>
      let cmd := strLower c
      let errResult := fun (e : String) =>
        ({ success := false, output := "Error: " ++ e, command := cmdStr,
           pageChanged := false, errorType := some (classifyError e),
           pageTitle := ctxAfter.1, pageUrl := ctxAfter.2 }, 1)
      if cmd = "scan" then
        match driver cmd args with
        | .ok _ =>
          ({ success := true, output := "SCAN COMPLETE", command := cmdStr,
             pageChanged := false, errorType := none,
             pageTitle := ctxAfter.1, pageUrl := ctxAfter.2 }, 1)
        | .error e => errResult e
      else if cmd = "go" then
        match driver cmd args with
        | .ok _ =>
          let changed :=
            if pyTruthy urlBefore then decide (ctxAfter.2 ≠ urlBefore)
            else true
          ({ success := true, output := "Successfully navigated",
             command := cmdStr, pageChanged := changed, errorType := none,
             pageTitle := ctxAfter.1, pageUrl := ctxAfter.2 }, 1)
        | .error e => errResult e
      else if cmd = "title" ∨ cmd = "url" then
        ({ success := true, output := "Page context", command := cmdStr,
           pageChanged := false, errorType := none,
           pageTitle := ctxAfter.1, pageUrl := ctxAfter.2 }, 0)
      else
        match driver cmd args with
        | .ok _ =>
          let changed :=
            match ctxAfter.2 with
            | none => false
            | some ua => decide (some ua ≠ urlBefore)
          ({ success := true, output := "Command completed successfully",
             command := cmdStr, pageChanged := changed, errorType := none,
             pageTitle := ctxAfter.1, pageUrl := ctxAfter.2 }, 1)
        | .error e => errResult e

/-- The `go` branch of `_execute_command` (agent.py lines 448-466) with the
element catalog threaded explicitly: the branch reads the page context,
computes `pageChanged` from the URL comparison (`True` when the before-URL
was unreadable or empty), and returns — the catalog is passed through
untouched, since no statement of the branch (nor `NavigationMixin.go_to`,
navigation.py 25-126) modifies `element_map` or the registry. -/
def executeGo (emap : List (Int × ElemMeta)) (urlArg : String)
    (urlBefore : Option String) (ctxAfter : Option String × Option String) :
    ExecutionResult × List (Int × ElemMeta) :=
  let changed :=
    if pyTruthy urlBefore then decide (ctxAfter.2 ≠ urlBefore) else true
  ({ success := true, output := "Successfully navigated to " ++ urlArg,
     command := "go " ++ urlArg, pageChanged := changed, errorType := none,
     pageTitle := ctxAfter.1, pageUrl := ctxAfter.2 }, emap)

/-! ## Task loop (`LLMBrowserAgent.execute_task`, agent.py 726-843) -/

/-- One parsed model response, as produced by `_parse_response` (agent.py
lines 310-339): a terminal DONE, a command (tagged with whether its
execution will succeed), or malformed output. -/
inductive ModelResponse
  | done
  | command (succeeds : Bool)
  | malformed
deriving Repr, DecidableEq

/-- How a task run ends: DONE received, step ceiling reached, or an LLM
transport failure (a raised `_call_llm`, modelled as an exhausted response
script). -/
inductive TaskOutcome
  | completed
  | maxSteps
  | llmUnavailable
deriving Repr, DecidableEq

/-- The consecutive-failure counter update of agent.py lines 810-815: reset
to zero on success, incremented on failure. -/
def stepFailures (success : Bool) (failures : Nat) : Nat :=
  if success then 0 else failures + 1

/-- The `while self.step_count < max_steps` loop of `execute_task` (agent.py
lines 752-835), driven by the script of model responses (head = the
response the loop is about to parse).  A malformed response is answered with
one corrective prompt and the loop continues (lines 759-776); DONE returns
(lines 779-797); a command is executed and the failure counter updated
(lines 807-815).  Accumulates the number of corrective reformat prompts
issued and the consecutive-failure counter. -/
def runLoop : Nat → List ModelResponse → Nat → Nat → TaskOutcome × Nat × Nat
  | 0, _, retries, failures => (.maxSteps, retries, failures)
  | _ + 1, [], retries, failures => (.llmUnavailable, retries, failures)
  | budget + 1, resp :: script, retries, failures =>
    match resp with
    | .malformed => runLoop budget script (retries + 1) failures
    | .done => (.completed, retries, failures)
    | .command ok => runLoop budget script retries (stepFailures ok failures)

/-- `execute_task` (agent.py lines 726-843): the initial `_call_llm`
provides the first response (its failure returns before the loop, lines
740-749), then the loop runs with the step budget.  Returns the outcome,
the number of reformat retries issued, and the final consecutive-failure
counter. -/
def executeTask (maxSteps : Nat) (script : List ModelResponse) :
    TaskOutcome × Nat × Nat :=
  if script.isEmpty then (.llmUnavailable, 0, 0)
  else runLoop maxSteps script 0 0

/-! ## Feedback (`LLMBrowserAgent._build_feedback`, agent.py 669-724) -/

/-- `MAX_CONSECUTIVE_FAILURES` (agent.py line 79). -/
def MAX_CONSECUTIVE_FAILURES : Nat := 3

/-- The recovery hint appended per error kind (agent.py lines 687-695). -/
def recoveryHint : Option ErrorType → List String
  | some .validation =>
    ["Recovery: Check your command syntax or scan for elements first"]
  | some .stale =>
    ["Recovery: Page changed - run scan again to get fresh element numbers"]
  | some .overlay =>
    ["Recovery: Try press Escape to close any overlays, then retry"]
  | some .timeout =>
    ["Recovery: Page is slow - try again or use a different approach"]
  | _ => []

/-- The feedback message without the consecutive-failure warning: result
section, recovery hint, current page state, and the task-completion
checklist (agent.py lines 671-717). -/
def feedbackBase (r : ExecutionResult) (task : String) : List String :=
  ["EXECUTION RESULT", "Command: " ++ r.command,
   "Status: " ++ (if r.success then "SUCCESS" else "FAILED")]
  ++ (if r.success then ["Output:", r.output]
      else ["Error:", r.output] ++ recoveryHint r.errorType)
  ++ ["CURRENT PAGE STATE"]
  ++ (match r.pageTitle, r.pageUrl with
      | some t, some u =>
        ["CURRENT PAGE TITLE: " ++ t, "CURRENT PAGE URL: " ++ u]
      | _, _ => ["CURRENT PAGE: Unable to determine"])
  ++ ["ORIGINAL TASK: " ++ task, "TASK COMPLETION CHECK:"]

/-- `_build_feedback` (agent.py lines 669-724): the base message, plus the
stronger warning lines appended exactly when the consecutive-failure
counter has reached `MAX_CONSECUTIVE_FAILURES` (lines 719-722). -/
def buildFeedback (r : ExecutionResult) (task : String)
    (consecutiveFailures : Nat) : List String :=
  feedbackBase r task ++
    (if MAX_CONSECUTIVE_FAILURES ≤ consecutiveFailures then
      ["WARNING: " ++ toString consecutiveFailures ++ " consecutive failures",
       "Consider trying a different approach"]
    else [])

/-! ## Conversation management (`LLMBrowserAgent._call_llm`, agent.py 635-664) -/

/-- One entry of `self.conversation_history`. -/
structure ChatMessage where
  role : String
  content : String
deriving Repr, DecidableEq

/-- `MAX_CONVERSATION_MESSAGES` (agent.py line 76). -/
def MAX_CONVERSATION_MESSAGES : Nat := 14

/-- Python list slice `l[-n:]`: the last `n` entries (all of them when the
list is shorter). -/
def lastN (n : Nat) (l : List ChatMessage) : List ChatMessage :=
  l.drop (l.length - n)

/-- The request assembly of `_call_llm` (agent.py lines 637-647): the user
message is appended to the stored history, and the submitted message list is
the system prompt followed by the last `MAX_CONVERSATION_MESSAGES` stored
entries.  Returns (submitted messages, stored history after the append). -/
def callLLMRequest (systemPrompt : String) (history : List ChatMessage)
    (userMessage : String) : List ChatMessage × List ChatMessage :=
  let history2 := history ++ [⟨"user", userMessage⟩]
  (⟨"system", systemPrompt⟩ :: lastN MAX_CONVERSATION_MESSAGES history2,
   history2)

/-- The append of the assistant reply (agent.py lines 659-662). -/
def recordAssistant (history : List ChatMessage) (response : String) :
    List ChatMessage :=
  history ++ [⟨"assistant", response⟩]

/-- The stored conversation history after `n` complete `_call_llm` rounds of
a task, starting from the empty history. -/
def conversationAfterCalls : Nat → List ChatMessage
  | 0 => []
  | n + 1 =>
    recordAssistant
      (callLLMRequest "sys" (conversationAfterCalls n) "u").2 "a"

/-! ## Server busy guard (`AgentUIServer.execute_task`, server.py 349-396) -/

/-- Server state: whether the agent is initialized, the `task_running` flag,
and the ghost list of tasks started but not yet finished (the code holds at
most the one task driven by the current `execute_task` coroutine). -/
structure ServerState where
  agentInit : Bool
  taskRunning : Bool
  activeTasks : List String
deriving Repr, DecidableEq

/-- Observable events broadcast by the server paths modelled here. -/
inductive ServerEvent
  | errorNoAgent
  | errorBusy
  | taskStart (task : String)
  | taskEnd
deriving Repr, DecidableEq

/-- Inbound requests relevant to the busy guard: agent initialization, an
`execute_task` message, and the `finally` completion of a running task. -/
inductive ServerRequest
  | initializeAgent
  | executeTask (task : String)
  | finishTask
deriving Repr, DecidableEq

/-- `AgentUIServer.execute_task` guards (server.py lines 349-365): no agent
yields an error event; a running task yields the busy error event with the
state untouched (the request is not queued); otherwise the flag is set and
the task starts.  `finishTask` is the `finally` clause (lines 392-396):
flag cleared, `task_end` broadcast. -/
def serverStep (s : ServerState) (r : ServerRequest) :
    ServerState × List ServerEvent :=
  match r with
  | .initializeAgent => ({ s with agentInit := true }, [])
  | .executeTask t =>
    if s.agentInit = false then (s, [.errorNoAgent])
    else if s.taskRunning = true then (s, [.errorBusy])
    else ({ s with taskRunning := true, activeTasks := t :: s.activeTasks },
          [.taskStart t])
  | .finishTask =>
    if s.taskRunning = true then
      ({ s with taskRunning := false, activeTasks := s.activeTasks.drop 1 },
       [.taskEnd])
    else (s, [])

/-- Folding a request sequence through the server. -/
def serverRun : ServerState → List ServerRequest → ServerState
  | s, [] => s
  | s, r :: rest => serverRun (serverStep s r).1 rest

/-- The server's initial state (server.py lines 104-107). -/
def initialServerState : ServerState :=
  { agentInit := false, taskRunning := false, activeTasks := [] }

/-- The consistency invariant tying the `task_running` flag to the ghost
active-task list. -/
def ServerInv (s : ServerState) : Prop :=
  s.taskRunning = !s.activeTasks.isEmpty ∧ s.activeTasks.length ≤ 1

/-! ## Sample data for concrete evaluations -/

/-- A catalog entry as left by a pre-navigation scan of a link. -/
def sampleMeta : ElemMeta :=
  { label := "Old link", etype := "LINK", stableId := "sid-old", score := 0.5 }

/-- A failed execution result as produced for a validation error. -/
def sampleResult : ExecutionResult :=
  { success := false, output := "Element 5 not found", command := "click 5",
    pageChanged := false, errorType := some .validation,
    pageTitle := some "T", pageUrl := some "https://a.com" }

/-! ## Theorems -/

/-- C10: for every scanned element — any tag, label and display type, and
also when metadata extraction raises (the 0.5 fallback) — the relevance
score computed by `_calculate_score` lies in the closed interval [0, 1],
because the computation ends in the clamp `max(0.0, min(1.0, score))`; hence
every score stored in the element catalog is between 0 and 1. -/
theorem calculateScore_in_unit_interval (inp : ScoreInput) :
    0 ≤ calculateScore inp ∧ calculateScore inp ≤ 1 := by
  unfold calculateScore
  by_cases hr : inp.raises = true
  · rw [if_pos hr]
    norm_num
  · rw [if_neg hr]
    exact ⟨le_max_left 0 _, max_le (by norm_num) (min_le_left 1 _)⟩

/-- Association-list lookup finds the binding just consed. -/
theorem lookup_cons_self {β : Type} (s : String) (v : β)
    (l : List (String × β)) : ((s, v) :: l).lookup s = some v := by
  simp [List.lookup]

/-- Association-list lookup skips a binding with a different key. -/
theorem lookup_cons_ne {β : Type} {s k : String} (v : β)
    (l : List (String × β)) (h : s ≠ k) :
    ((k, v) :: l).lookup s = l.lookup s := by
  simp [List.lookup, beq_eq_false_iff_ne.mpr h]

/-- Every stable id assigned by the scan element loop was not in the seen
set the loop started from (each processed node is deduplicated against the
seen set before assignment). -/
theorem scanLoop_assigned_not_seen :
    ∀ (l : List (String × ScannedNode)) (seen : List String) (reg : Registry)
      (s : String) (i : Nat),
      (s, i) ∈ (scanLoop l seen reg).1 → s ∉ seen := by
  intro l
  induction l with
  | nil =>
    intro seen reg s i h
    simp [scanLoop] at h
  | cons p rest ih =>
    obtain ⟨kind, e⟩ := p
    intro seen reg s i h
    rw [scanLoop] at h
    by_cases h1 : e.visible = false
    · rw [if_pos h1] at h
      exact ih seen reg s i h
    · rw [if_neg h1] at h
      by_cases h2 : e.stableId ∈ seen
      · rw [if_pos h2] at h
        exact ih seen reg s i h
      · rw [if_neg h2] at h
        by_cases h3 : labelMissing e = true ∧ kind ≠ "links"
        · rw [if_pos h3] at h
          intro hs
          exact ih _ _ s i h (List.mem_cons_of_mem _ hs)
        · rw [if_neg h3] at h
          rcases List.mem_cons.mp h with heq | htail
          · obtain ⟨hs, _⟩ := Prod.mk.injEq .. ▸ heq
            intro hmem
            exact h2 (hs ▸ hmem)
          · intro hmem
            exact ih _ _ s i htail (List.mem_cons_of_mem _ hmem)

/-- A registry binding for a stable id already in the seen set survives the
scan element loop: the loop only writes bindings for ids outside the current
seen set, and the seen set only grows. -/
theorem scanLoop_lookup_preserved :
    ∀ (l : List (String × ScannedNode)) (seen : List String) (reg : Registry)
      (s : String) (i : Nat),
      s ∈ seen → reg.entries.lookup s = some i →
      ((scanLoop l seen reg).2.2).entries.lookup s = some i := by
  intro l
  induction l with
  | nil =>
    intro seen reg s i hs hreg
    simpa [scanLoop] using hreg
  | cons p rest ih =>
    obtain ⟨kind, e⟩ := p
    intro seen reg s i hs hreg
    rw [scanLoop]
    by_cases h1 : e.visible = false
    · rw [if_pos h1]
      exact ih seen reg s i hs hreg
    · rw [if_neg h1]
      by_cases h2 : e.stableId ∈ seen
      · rw [if_pos h2]
        exact ih seen reg s i hs hreg
      · rw [if_neg h2]
        by_cases h3 : labelMissing e = true ∧ kind ≠ "links"
        · rw [if_pos h3]
          exact ih _ _ s i (List.mem_cons_of_mem _ hs) hreg
        · rw [if_neg h3]
          have hne : s ≠ e.stableId := fun heq => h2 (heq ▸ hs)
          refine ih _ _ s i (List.mem_cons_of_mem _ hs) ?_
          show (updatedRegistry e reg).entries.lookup s = some i
          unfold updatedRegistry
          rw [lookup_cons_ne _ _ hne]
          exact hreg

/-- After the scan element loop, the final registry holds exactly the index
the loop assigned to each stable id it processed. -/
theorem scanLoop_lookup_recorded :
    ∀ (l : List (String × ScannedNode)) (seen : List String) (reg : Registry)
      (s : String) (i : Nat),
      (s, i) ∈ (scanLoop l seen reg).1 →
      ((scanLoop l seen reg).2.2).entries.lookup s = some i := by
  intro l
  induction l with
  | nil =>
    intro seen reg s i h
    simp [scanLoop] at h
  | cons p rest ih =>
    obtain ⟨kind, e⟩ := p
    intro seen reg s i h
    rw [scanLoop] at h ⊢
    by_cases h1 : e.visible = false
    · rw [if_pos h1] at h ⊢
      exact ih seen reg s i h
    · rw [if_neg h1] at h ⊢
      by_cases h2 : e.stableId ∈ seen
      · rw [if_pos h2] at h ⊢
        exact ih seen reg s i h
      · rw [if_neg h2] at h ⊢
        by_cases h3 : labelMissing e = true ∧ kind ≠ "links"
        · rw [if_pos h3] at h ⊢
          exact ih _ _ s i h
        · rw [if_neg h3] at h ⊢
          rcases List.mem_cons.mp h with heq | htail
          · obtain ⟨hs, hi⟩ := Prod.mk.injEq .. ▸ heq
            subst hs
            subst hi
            refine scanLoop_lookup_preserved _ _ _ _ _ (List.mem_cons_self _ _) ?_
            show (updatedRegistry e reg).entries.lookup e.stableId =
              some (assignedIndex e reg)
            unfold updatedRegistry
            exact lookup_cons_self _ _ _
          · exact ih _ _ s i htail

/-- Unfolding equation of the scan element loop: invisible node skipped. -/
theorem scanLoop_cons_invisible {kind : String} {e : ScannedNode}
    (rest : List (String × ScannedNode)) (seen : List String) (reg : Registry)
    (h1 : e.visible = false) :
    scanLoop ((kind, e) :: rest) seen reg = scanLoop rest seen reg := by
  rw [scanLoop, if_pos h1]

/-- Unfolding equation of the scan element loop: already-seen id skipped. -/
theorem scanLoop_cons_seen {kind : String} {e : ScannedNode}
    (rest : List (String × ScannedNode)) (seen : List String) (reg : Registry)
    (h1 : ¬e.visible = false) (h2 : e.stableId ∈ seen) :
    scanLoop ((kind, e) :: rest) seen reg = scanLoop rest seen reg := by
  rw [scanLoop, if_neg h1, if_pos h2]

/-- Unfolding equation of the scan element loop: unlabeled node of a
non-links pass skipped after joining the seen set. -/
theorem scanLoop_cons_nolabel {kind : String} {e : ScannedNode}
    (rest : List (String × ScannedNode)) (seen : List String) (reg : Registry)
    (h1 : ¬e.visible = false) (h2 : e.stableId ∉ seen)
    (h3 : labelMissing e = true ∧ kind ≠ "links") :
    scanLoop ((kind, e) :: rest) seen reg =
      scanLoop rest (e.stableId :: seen) reg := by
  rw [scanLoop, if_neg h1, if_neg h2, if_pos h3]

/-- Unfolding equation of the scan element loop: surviving node assigned. -/
theorem scanLoop_cons_assign {kind : String} {e : ScannedNode}
    (rest : List (String × ScannedNode)) (seen : List String) (reg : Registry)
    (h1 : ¬e.visible = false) (h2 : e.stableId ∉ seen)
    (h3 : ¬(labelMissing e = true ∧ kind ≠ "links")) :
    scanLoop ((kind, e) :: rest) seen reg =
      ((e.stableId, assignedIndex e reg) ::
         (scanLoop rest (e.stableId :: seen) (updatedRegistry e reg)).1,
       (scanLoop rest (e.stableId :: seen) (updatedRegistry e reg)).2) := by
  rw [scanLoop, if_neg h1, if_neg h2, if_neg h3]

/-- The scan element loop is driven by the seen set and the registry only
through the lookups of the ids it assigns: running it from any registry that
already answers those lookups with the same indices reproduces the same
assignment list and the same seen set. -/
theorem scanLoop_determined :
    ∀ (l : List (String × ScannedNode)) (seen : List String)
      (reg reg' : Registry),
      (∀ s i, (s, i) ∈ (scanLoop l seen reg).1 →
        reg'.entries.lookup s = some i) →
      (scanLoop l seen reg').1 = (scanLoop l seen reg).1 ∧
      (scanLoop l seen reg').2.1 = (scanLoop l seen reg).2.1 := by
  intro l
  induction l with
  | nil =>
    intro seen reg reg' _
    simp [scanLoop]
  | cons p rest ih =>
    obtain ⟨kind, e⟩ := p
    intro seen reg reg' hreg
    by_cases h1 : e.visible = false
    · rw [scanLoop_cons_invisible rest seen reg h1] at hreg ⊢
      rw [scanLoop_cons_invisible rest seen reg' h1]
      exact ih seen reg reg' hreg
    · by_cases h2 : e.stableId ∈ seen
      · rw [scanLoop_cons_seen rest seen reg h1 h2] at hreg ⊢
        rw [scanLoop_cons_seen rest seen reg' h1 h2]
        exact ih seen reg reg' hreg
      · by_cases h3 : labelMissing e = true ∧ kind ≠ "links"
        · rw [scanLoop_cons_nolabel rest seen reg h1 h2 h3] at hreg ⊢
          rw [scanLoop_cons_nolabel rest seen reg' h1 h2 h3]
          exact ih _ reg reg' hreg
        · rw [scanLoop_cons_assign rest seen reg h1 h2 h3] at hreg ⊢
          rw [scanLoop_cons_assign rest seen reg' h1 h2 h3]
          have hhead : reg'.entries.lookup e.stableId =
              some (assignedIndex e reg) :=
            hreg e.stableId (assignedIndex e reg) (List.mem_cons_self _ _)
          have hidx : assignedIndex e reg' = assignedIndex e reg := by
            unfold assignedIndex
            rw [hhead]
            rfl
          have hupd : updatedRegistry e reg' =
              ⟨(e.stableId, assignedIndex e reg) :: reg'.entries,
               reg'.nextIndex⟩ := by
            unfold updatedRegistry
            rw [hhead, hidx]
            rfl
          have htail : ∀ s i,
              (s, i) ∈ (scanLoop rest (e.stableId :: seen)
                (updatedRegistry e reg)).1 →
              (updatedRegistry e reg').entries.lookup s = some i := by
            intro s i hmem
            have hnot : s ∉ e.stableId :: seen :=
              scanLoop_assigned_not_seen _ _ _ s i hmem
            have hne : s ≠ e.stableId := fun heq =>
              hnot (heq ▸ List.mem_cons_self _ _)
            rw [hupd]
            rw [lookup_cons_ne _ _ hne]
            exact hreg s i (List.mem_cons_of_mem _ hmem)
          obtain ⟨hout, hseen⟩ := ih (e.stableId :: seen) (updatedRegistry e reg)
            (updatedRegistry e reg') htail
          constructor
          · rw [hidx, hout]
          · exact hseen

/-- C5: for all pairs of scans of an unchanged page, repeated scan calls
yield identical displayIndex-to-stableId assignments: a stable id already
recorded in the registry by the first call is assigned the same display
index by the second call (scanning.py lines 237-242 reuse the registry
index), so the assignment lists of the two calls coincide. -/
theorem scan_assignments_idempotent
    (page : List (String × ScannedNode)) (reg : Registry) :
    (scanCall page (scanCall page reg).2).1 = (scanCall page reg).1 := by
  unfold scanCall
  exact (scanLoop_determined page [] reg (scanLoop page [] reg).2.2
    (fun s i h => scanLoop_lookup_recorded page [] reg s i h)).1

/-- C7: for every invocation of scan — any filter, any driver outcome
including raising page queries — the body of `scan` returns normally (an
`Except.ok` value, never a propagated exception), and a page query that
raises for one element type yields the empty contribution for that type
while leaving the seen set and registry untouched. -/
theorem scan_failure_empty_not_thrown :
    (∀ (filterType : Option String)
       (queries : String → Except String (List ScannedNode)) (reg : Registry),
       ∃ r, scanBody filterType queries reg = Except.ok r) ∧
    (∀ (kind msg : String) (seen : List String) (reg : Registry),
       scanTypeRun kind (Except.error msg) seen reg = ([], seen, reg)) := by
  constructor
  · intro filterType queries reg
    cases filterType with
    | none => exact ⟨_, rfl⟩
    | some f =>
      simp only [scanBody]
      by_cases hbad : f ≠ "" ∧ f ≠ "all" ∧ f ∉ scanKinds
      · rw [if_pos hbad]
        exact ⟨_, rfl⟩
      · rw [if_neg hbad]
        by_cases hone : f ≠ "" ∧ f ≠ "all"
        · rw [if_pos hone]
          exact ⟨_, rfl⟩
        · rw [if_neg hone]
          exact ⟨_, rfl⟩
  · intro kind msg seen reg
    rfl

/-- Every element-targeted command name is a registered command. -/
theorem elementCommands_known {c : String} (h : c ∈ elementCommands) :
    c ∈ knownCommands := by
  fin_cases h <;> decide

/-- The element-command block rejects an absent index. -/
theorem elementCheck_absent_index (cmd a : String) (rest : List String)
    (emap : List (Int × ElemMeta)) (idx : Int)
    (hc : cmd ∈ elementCommands) (ha : parseInt? a = some idx)
    (hl : emap.lookup idx = none) :
    (elementCheck cmd (a :: rest) emap).1 = false := by
  unfold elementCheck
  rw [if_pos hc]
  simp only [elementArgsCheck, ha, elementIdxCheck, hl, elementMetaCheck]
  by_cases he : emap.isEmpty = true
  · rw [if_pos he]
  · rw [if_neg he]

/-- The element-command block rejects `type` on a non-text-entry element. -/
theorem elementCheck_type_wrong_role (a : String) (rest : List String)
    (emap : List (Int × ElemMeta)) (idx : Int) (meta : ElemMeta)
    (ha : parseInt? a = some idx) (hl : emap.lookup idx = some meta)
    (ht : strLower meta.etype ∉ ["input", "textarea"]) :
    (elementCheck "type" (a :: rest) emap).1 = false := by
  unfold elementCheck
  rw [if_pos (by decide : ("type" : String) ∈ elementCommands)]
  simp only [elementArgsCheck, ha, elementIdxCheck, hl, elementMetaCheck]
  rw [if_pos trivial, if_pos ht]

/-- `_validate_command` fails whenever its element-command block fails. -/
theorem validate_of_elementCheck_false (c : String) (args : List String)
    (emap : List (Int × ElemMeta))
    (hec : (elementCheck (strLower c) args emap).1 = false) :
    (validateCommand (c :: args) emap).1 = false := by
  simp only [validateCommand]
  by_cases hknown : strLower c ∈ knownCommands
  · rw [if_neg (not_not_intro hknown), if_pos hec]
    exact hec
  · rw [if_pos hknown]

/-- `_execute_command` returns the validation-failure result, with no
driver invocation, whenever validation fails. -/
theorem executeCommand_invalid (parts : List String)
    (emap : List (Int × ElemMeta)) (urlBefore : Option String)
    (ctxAfter : Option String × Option String)
    (driver : String → List String → Except String Unit)
    (h : (validateCommand parts emap).1 = false) :
    executeCommand parts emap urlBefore ctxAfter driver =
      ({ success := false, output := (validateCommand parts emap).2,
         command := String.intercalate " " parts, pageChanged := false,
         errorType := some .validation, pageTitle := ctxAfter.1,
         pageUrl := ctxAfter.2 }, 0) := by
  simp only [executeCommand]
  rw [if_pos h]

/-- C3: an element-targeted command whose index is absent from the current
element catalog, and a `type` command whose resolved element's stored type
is not a text-entry type (input/textarea), both produce a failed
`ExecutionResult` with `errorType = validation` and zero driver command
invocations: `_execute_command` returns before touching `self.commands`. -/
theorem validation_rejects_without_driver :
    (∀ (c a : String) (rest : List String) (emap : List (Int × ElemMeta))
       (urlBefore : Option String) (ctxAfter : Option String × Option String)
       (driver : String → List String → Except String Unit) (idx : Int),
       strLower c ∈ elementCommands → parseInt? a = some idx →
       emap.lookup idx = none →
       (executeCommand (c :: a :: rest) emap urlBefore ctxAfter
           driver).1.success = false ∧
       (executeCommand (c :: a :: rest) emap urlBefore ctxAfter
           driver).1.errorType = some ErrorType.validation ∧
       (executeCommand (c :: a :: rest) emap urlBefore ctxAfter
           driver).2 = 0) ∧
    (∀ (c a : String) (rest : List String) (emap : List (Int × ElemMeta))
       (urlBefore : Option String) (ctxAfter : Option String × Option String)
       (driver : String → List String → Except String Unit) (idx : Int)
       (meta : ElemMeta),
       strLower c = "type" → parseInt? a = some idx →
       emap.lookup idx = some meta →
       strLower meta.etype ∉ ["input", "textarea"] →
       (executeCommand (c :: a :: rest) emap urlBefore ctxAfter
           driver).1.success = false ∧
       (executeCommand (c :: a :: rest) emap urlBefore ctxAfter
           driver).1.errorType = some ErrorType.validation ∧
       (executeCommand (c :: a :: rest) emap urlBefore ctxAfter
           driver).2 = 0) := by
  constructor
  · intro c a rest emap urlBefore ctxAfter driver idx hc ha hl
    rw [executeCommand_invalid _ _ _ _ _
      (validate_of_elementCheck_false c (a :: rest) emap
        (elementCheck_absent_index (strLower c) a rest emap idx hc ha hl))]
    exact ⟨rfl, rfl, rfl⟩
  · intro c a rest emap urlBefore ctxAfter driver idx meta hc ha hl ht
    rw [executeCommand_invalid _ _ _ _ _
      (validate_of_elementCheck_false c (a :: rest) emap
        (hc ▸ elementCheck_type_wrong_role a rest emap idx meta ha hl ht))]
    exact ⟨rfl, rfl, rfl⟩

/-- C3 witness: concrete invalid inputs — `click 5` against an empty
catalog and `type 2 hi` against a catalog whose element 2 is a button —
are both rejected as validation errors with zero driver invocations. -/
theorem validation_rejects_without_driver_w :
    ((executeCommand ["click", "5"] [] none (none, none)
        (fun _ _ => .ok ())).1.success = false ∧
     (executeCommand ["click", "5"] [] none (none, none)
        (fun _ _ => .ok ())).1.errorType = some ErrorType.validation ∧
     (executeCommand ["click", "5"] [] none (none, none)
        (fun _ _ => .ok ())).2 = 0) ∧
    ((executeCommand ["type", "2", "hi"]
        [((2 : Int), ⟨"Go", "BUTTON", "sidb", 0.5⟩)] none (none, none)
        (fun _ _ => .ok ())).1.success = false ∧
     (executeCommand ["type", "2", "hi"]
        [((2 : Int), ⟨"Go", "BUTTON", "sidb", 0.5⟩)] none (none, none)
        (fun _ _ => .ok ())).1.errorType = some ErrorType.validation ∧
     (executeCommand ["type", "2", "hi"]
        [((2 : Int), ⟨"Go", "BUTTON", "sidb", 0.5⟩)] none (none, none)
        (fun _ _ => .ok ())).2 = 0) :=
  ⟨validation_rejects_without_driver.1 "click" "5" [] [] none (none, none)
      (fun _ _ => .ok ()) 5 (by decide) rfl rfl,
   validation_rejects_without_driver.2 "type" "2" ["hi"]
      [((2 : Int), ⟨"Go", "BUTTON", "sidb", 0.5⟩)] none (none, none)
      (fun _ _ => .ok ()) 2 ⟨"Go", "BUTTON", "sidb", 0.5⟩ rfl rfl rfl
      (by decide)⟩

/-- Driver-operation count of the click retry loop is at most two per
attempt. -/
theorem clickAttempts_ops_le (n : Nat) :
    ∀ (k : Nat) (found : Nat → Bool) (outcome : Nat → AttemptOutcome),
      (clickAttempts n k found outcome).2 ≤ 2 * n := by
  induction n with
  | zero =>
    intro k found outcome
    simp [clickAttempts]
  | succ n ih =>
    intro k found outcome
    rw [clickAttempts]
    by_cases hf : found k = false
    · rw [if_pos hf]
      omega
    · rw [if_neg hf]
      cases houtcome : outcome k with
      | ok => simp
      | scrollRaises =>
        have := ih (k + 1) found outcome
        simp only []
        omega
      | clickRaises =>
        have := ih (k + 1) found outcome
        simp only []
        omega

/-- `_execute_command` invokes at most one command-registry method. -/
theorem executeCommand_at_most_one_invocation (parts : List String)
    (emap : List (Int × ElemMeta)) (urlBefore : Option String)
    (ctxAfter : Option String × Option String)
    (driver : String → List String → Except String Unit) :
    (executeCommand parts emap urlBefore ctxAfter driver).2 ≤ 1 := by
  simp only [executeCommand]
  split
  · omega
  · split
    · omega
    · split
      · split <;> omega
      · split
        · split <;> omega
        · split
          · omega
          · split <;> omega

/-- C2 amended: a single `execute` performs at most one command-method
invocation, but the click implementation performs between one and
2·(retries+1) driver operations once the element is found (a scroll-into-view
and a click per attempt, retried up to `retries` additional times), and zero
when the element is missing — never the exactly-one guarantee of the claim. -/
theorem click_driver_operation_bounds (retries : Nat) (found : Nat → Bool)
    (outcome : Nat → AttemptOutcome) :
    ((clickRun retries found outcome).2 ≤ 2 * (retries + 1)) ∧
    (found 0 = false → clickRun retries found outcome = (false, 0)) ∧
    (found 0 = true → 1 ≤ (clickRun retries found outcome).2) ∧
    (∀ (parts : List String) (emap : List (Int × ElemMeta))
       (urlBefore : Option String) (ctxAfter : Option String × Option String)
       (driver : String → List String → Except String Unit),
       (executeCommand parts emap urlBefore ctxAfter driver).2 ≤ 1) := by
  refine ⟨clickAttempts_ops_le (retries + 1) 0 found outcome, ?_, ?_, ?_⟩
  · intro hf
    unfold clickRun
    rw [clickAttempts, if_pos hf]
  · intro hf
    unfold clickRun
    rw [clickAttempts, if_neg (by simp [hf])]
    cases houtcome : outcome 0 with
    | ok => simp
    | scrollRaises => simp
    | clickRaises =>
      simp only []
      omega
  · intro parts emap urlBefore ctxAfter driver
    exact executeCommand_at_most_one_invocation parts emap urlBefore
      ctxAfter driver

/-- C2 witness: at retries = 2 with the element found and every driver call
succeeding, the bounds instantiate: the operation count is at most 6, at
least 1, and a missing element yields zero operations. -/
theorem click_driver_operation_bounds_w :
    ((clickRun 2 (fun _ => true) (fun _ => .ok)).2 ≤ 6) ∧
    (clickRun 2 (fun _ => false) (fun _ => .ok) = (false, 0)) ∧
    (1 ≤ (clickRun 2 (fun _ => true) (fun _ => .ok)).2) ∧
    ((executeCommand ["url"] [] none (none, none)
        (fun _ _ => .ok ())).2 ≤ 1) :=
  ⟨(click_driver_operation_bounds 2 (fun _ => true) (fun _ => .ok)).1,
   (click_driver_operation_bounds 2 (fun _ => false) (fun _ => .ok)).2.1 rfl,
   (click_driver_operation_bounds 2 (fun _ => true) (fun _ => .ok)).2.2.1 rfl,
   (click_driver_operation_bounds 2 (fun _ => true)
      (fun _ => .ok)).2.2.2 ["url"] [] none (none, none) (fun _ _ => .ok ())⟩

/-- C2 counterexample: a valid `click 3` against a catalog containing
element 3 passes validation, and the click implementation then performs two
driver operations (scroll-into-view followed by click) on a first-attempt
success — not exactly one. -/
theorem click_not_single_driver_op_cex :
    (validateCommand ["click", "3"]
        [((3 : Int), ⟨"Search", "INPUT", "sid3", 0⟩)]).1 = true ∧
    clickRun 2 (fun _ => true) (fun _ => .ok) = (true, 2) ∧
    (clickRun 2 (fun _ => true) (fun _ => .ok)).2 ≠ 1 := by
  refine ⟨rfl, rfl, by decide⟩

/-- C1 amended: a `go` whose driver navigation changed the page URL returns
`pageChanged = true`, but the element catalog is passed through unchanged —
the `go` branch of `_execute_command` never clears `element_map` (it only
prints a warning that old indices are invalid). -/
theorem go_pageChanged_catalog_unchanged (emap : List (Int × ElemMeta))
    (urlArg : String) (urlBefore : Option String)
    (ctxAfter : Option String × Option String)
    (h : ctxAfter.2 ≠ urlBefore) :
    (executeGo emap urlArg urlBefore ctxAfter).1.pageChanged = true ∧
    (executeGo emap urlArg urlBefore ctxAfter).2 = emap := by
  constructor
  · unfold executeGo
    by_cases ht : pyTruthy urlBefore = true
    · simp only [ht, if_true]
      exact decide_eq_true h
    · simp [ht]
  · rfl

/-- C1 witness: a concrete navigation from a.com to b.com reports
`pageChanged = true` and leaves the concrete one-entry catalog in place. -/
theorem go_pageChanged_catalog_unchanged_w :
    ((some "https://b.com" : Option String) ≠ some "https://a.com") ∧
    (executeGo [((3 : Int), sampleMeta)] "https://b.com"
        (some "https://a.com")
        (some "B", some "https://b.com")).1.pageChanged = true ∧
    (executeGo [((3 : Int), sampleMeta)] "https://b.com"
        (some "https://a.com")
        (some "B", some "https://b.com")).2 = [((3 : Int), sampleMeta)] :=
  ⟨by decide,
   (go_pageChanged_catalog_unchanged [((3 : Int), sampleMeta)]
      "https://b.com" (some "https://a.com")
      (some "B", some "https://b.com") (by decide)).1,
   (go_pageChanged_catalog_unchanged [((3 : Int), sampleMeta)]
      "https://b.com" (some "https://a.com")
      (some "B", some "https://b.com") (by decide)).2⟩

/-- C1 counterexample: after a URL-changing `go`, the pre-navigation catalog
entry with display index 3 is still present — the element catalog is not
cleared on navigation, contradicting the claim that navigation-causing
commands clear it so that old indices cannot refer to pre-navigation
elements. -/
theorem go_catalog_not_cleared_cex :
    (executeGo [((3 : Int), sampleMeta)] "https://b.com"
        (some "https://a.com")
        (some "B", some "https://b.com")).1.pageChanged = true ∧
    (executeGo [((3 : Int), sampleMeta)] "https://b.com"
        (some "https://a.com")
        (some "B", some "https://b.com")).2 ≠ [] ∧
    ((executeGo [((3 : Int), sampleMeta)] "https://b.com"
        (some "https://a.com")
        (some "B", some "https://b.com")).2).lookup (3 : Int) =
      some sampleMeta := by
  refine ⟨rfl, by simp [executeGo], rfl⟩

/-- A run of the task loop over `k` malformed responses followed by DONE
issues exactly `k` corrective reformat prompts and completes, provided the
step budget covers the `k + 1` parsed responses. -/
theorem runLoop_malformed_then_done (k : Nat) :
    ∀ (b retries failures : Nat), k + 1 ≤ b →
      runLoop b (List.replicate k .malformed ++ [.done]) retries failures =
        (.completed, retries + k, failures) := by
  induction k with
  | zero =>
    intro b retries failures hb
    obtain ⟨b2, rfl⟩ : ∃ b2, b = b2 + 1 := ⟨b - 1, by omega⟩
    simp [runLoop]
  | succ k ih =>
    intro b retries failures hb
    obtain ⟨b2, rfl⟩ : ∃ b2, b = b2 + 1 := ⟨b - 1, by omega⟩
    rw [List.replicate_succ, List.cons_append, runLoop,
      ih b2 (retries + 1) failures (by omega)]
    have harith : retries + 1 + k = retries + (k + 1) := by omega
    rw [harith]

/-- The reformat-retry counter of a task run never exceeds the step budget
(each retry consumes one step). -/
theorem runLoop_retries_le (b : Nat) :
    ∀ (script : List ModelResponse) (retries failures : Nat),
      (runLoop b script retries failures).2.1 ≤ retries + b := by
  induction b with
  | zero =>
    intro script retries failures
    simp [runLoop]
  | succ b ih =>
    intro script retries failures
    cases script with
    | nil => simp [runLoop]
    | cons resp rest =>
      cases resp with
      | malformed =>
        rw [runLoop]
        have := ih rest (retries + 1) failures
        omega
      | done =>
        rw [runLoop]
        simp
      | command ok =>
        rw [runLoop]
        have := ih rest retries (stepFailures ok failures)
        omega

/-- A task run over a script of failing commands runs its whole step budget:
the consecutive-failure counter climbs one per step and the run ends with
the step-ceiling outcome, not a failure-counter abort. -/
theorem runLoop_all_failures (b : Nat) :
    ∀ (n retries failures : Nat), b ≤ n →
      runLoop b (List.replicate n (.command false)) retries failures =
        (.maxSteps, retries, failures + b) := by
  induction b with
  | zero =>
    intro n retries failures _
    simp [runLoop]
  | succ b ih =>
    intro n retries failures hb
    obtain ⟨n2, rfl⟩ : ∃ n2, n = n2 + 1 := ⟨n - 1, by omega⟩
    rw [List.replicate_succ, runLoop,
      ih n2 retries (stepFailures false failures) (by omega)]
    have hs : stepFailures false failures = failures + 1 := rfl
    rw [hs]
    have harith : failures + 1 + b = failures + (b + 1) := by omega
    rw [harith]

/-- C4 amended: the state machine performs one reformat retry for every
malformed response — each consuming a step — rather than exactly one per
task: `k` consecutive malformed responses produce `k` corrective prompts and
the task still completes on a subsequent DONE, and the retry count is
bounded only by the step ceiling (no separate protocol error is surfaced). -/
theorem reformat_retry_per_malformed :
    (∀ (k maxSteps : Nat), k + 1 ≤ maxSteps →
      executeTask maxSteps (List.replicate k .malformed ++ [.done]) =
        (.completed, k, 0)) ∧
    (∀ (maxSteps : Nat) (script : List ModelResponse),
      (executeTask maxSteps script).2.1 ≤ maxSteps) := by
  constructor
  · intro k maxSteps hk
    unfold executeTask
    rw [if_neg (by simp), runLoop_malformed_then_done k maxSteps 0 0 hk]
    simp
  · intro maxSteps script
    unfold executeTask
    by_cases he : script.isEmpty = true
    · rw [if_pos he]
      exact Nat.zero_le _
    · rw [if_neg he]
      have := runLoop_retries_le maxSteps script 0 0
      omega

/-- C4 witness: two malformed responses then DONE, within a budget of three
steps, complete with two reformat retries; and the retry count of a
persistently malformed two-step run respects the step-budget bound. -/
theorem reformat_retry_per_malformed_w :
    executeTask 3 (List.replicate 2 .malformed ++ [.done]) =
      (.completed, 2, 0) ∧
    (executeTask 2 [.malformed, .malformed]).2.1 ≤ 2 :=
  ⟨reformat_retry_per_malformed.1 2 3 (by omega),
   reformat_retry_per_malformed.2 2 [.malformed, .malformed]⟩

/-- C4 counterexample: with the default budget of 25 steps, a task whose
model sends two malformed responses and then DONE receives two corrective
reformat prompts and completes normally — the machine does not stop at
exactly one reformat retry, and no protocol error is surfaced after the
first retry. -/
theorem reformat_retry_twice_cex :
    executeTask 25 [.malformed, .malformed, .done] = (.completed, 2, 0) ∧
    (executeTask 25 [.malformed, .malformed, .done]).2.1 ≠ 1 := by
  refine ⟨rfl, by decide⟩

/-- C9: the consecutive-failure counter is reset to zero on success and
incremented by one on failure (and the loop applies exactly this update when
it processes a command result); the failure ceiling is advisory — once the
counter reaches `MAX_CONSECUTIVE_FAILURES` the feedback message carries the
stronger warning lines and below the ceiling it is exactly the base message
— and a run of failing commands is terminated by the step ceiling alone,
with the counter having climbed to the step count. -/
theorem failure_counter_and_advisory_ceiling :
    (∀ (f : Nat), stepFailures true f = 0 ∧ stepFailures false f = f + 1) ∧
    (∀ (b : Nat) (script : List ModelResponse) (retries f : Nat) (ok : Bool),
      runLoop (b + 1) (.command ok :: script) retries f =
        runLoop b script retries (stepFailures ok f)) ∧
    (∀ (r : ExecutionResult) (task : String) (f : Nat),
      (MAX_CONSECUTIVE_FAILURES ≤ f →
        "Consider trying a different approach" ∈ buildFeedback r task f) ∧
      (f < MAX_CONSECUTIVE_FAILURES →
        buildFeedback r task f = feedbackBase r task)) ∧
    (∀ (maxSteps n : Nat), maxSteps ≤ n → 1 ≤ n →
      executeTask maxSteps (List.replicate n (.command false)) =
        (.maxSteps, 0, maxSteps)) := by
  refine ⟨?_, ?_, ?_, ?_⟩
  · intro f
    exact ⟨rfl, rfl⟩
  · intro b script retries f ok
    rw [runLoop]
  · intro r task f
    constructor
    · intro hf
      unfold buildFeedback
      rw [if_pos hf]
      exact List.mem_append_right _ (by simp)
    · intro hf
      unfold buildFeedback
      rw [if_neg (Nat.not_le.mpr hf)]
      simp
  · intro maxSteps n h1 h2
    unfold executeTask
    rw [if_neg (by simp [List.isEmpty_eq_true]; omega),
      runLoop_all_failures maxSteps n 0 0 h1]
    simp

/-- C9 witness: concrete counter updates, the warning present at the ceiling
of three failures, and a three-step budget exhausted by four failing
commands ending in the step-ceiling outcome with the counter at three. -/
theorem failure_counter_and_advisory_ceiling_w :
    (stepFailures true 5 = 0 ∧ stepFailures false 5 = 6) ∧
    runLoop 3 (.command true :: [.done]) 0 2 =
      runLoop 2 [.done] 0 (stepFailures true 2) ∧
    "Consider trying a different approach" ∈ buildFeedback sampleResult "t" 3 ∧
    executeTask 3 (List.replicate 4 (.command false)) = (.maxSteps, 0, 3) :=
  ⟨failure_counter_and_advisory_ceiling.1 5,
   failure_counter_and_advisory_ceiling.2.1 2 [.done] 0 2 true,
   (failure_counter_and_advisory_ceiling.2.2.1 sampleResult "t" 3).1
     (by decide),
   failure_counter_and_advisory_ceiling.2.2.2 3 4 (by omega) (by omega)⟩

/-- C8 amended: each model call submits the system prompt followed by at
most the `MAX_CONVERSATION_MESSAGES` (14) most recent stored entries — the
submitted tail is a suffix of the stored history — while the stored history
itself only grows by appending the user message (no entry is dropped from
it). -/
theorem llm_request_window_bounded (systemPrompt : String)
    (history : List ChatMessage) (userMessage : String) :
    (callLLMRequest systemPrompt history userMessage).1.length ≤
      MAX_CONVERSATION_MESSAGES + 1 ∧
    (callLLMRequest systemPrompt history userMessage).1.head? =
      some ⟨"system", systemPrompt⟩ ∧
    List.IsSuffix
      ((callLLMRequest systemPrompt history userMessage).1.drop 1)
      ((callLLMRequest systemPrompt history userMessage).2) ∧
    (callLLMRequest systemPrompt history userMessage).2 =
      history ++ [⟨"user", userMessage⟩] := by
  refine ⟨?_, rfl, ?_, rfl⟩
  · unfold callLLMRequest lastN
    simp only [List.length_cons, List.length_drop]
    omega
  · unfold callLLMRequest lastN
    simp only [List.drop_one, List.tail_cons]
    exact List.drop_suffix _ _

/-- C8 counterexample: after eight complete LLM calls the stored
conversation state holds 16 entries — more than the claimed bound of 14 —
and its first entry is still the very first user message, so the oldest
entries are never dropped from the stored state; only the submitted window
is truncated. -/
theorem conversation_state_unbounded_cex :
    (conversationAfterCalls 8).length = 16 ∧
    ¬((conversationAfterCalls 8).length ≤ MAX_CONVERSATION_MESSAGES) ∧
    (conversationAfterCalls 8).head? = some ⟨"user", "u"⟩ ∧
    (callLLMRequest "sys" (conversationAfterCalls 8) "u").1.length = 15 := by
  refine ⟨rfl, by decide, rfl, rfl⟩

/-- One server transition preserves the busy-guard invariant. -/
theorem serverStep_preserves_inv (s : ServerState) (r : ServerRequest)
    (h : ServerInv s) : ServerInv (serverStep s r).1 := by
  obtain ⟨hflag, hlen⟩ := h
  cases r with
  | initializeAgent => exact ⟨hflag, hlen⟩
  | executeTask t =>
    simp only [serverStep]
    by_cases hinit : s.agentInit = false
    · rw [if_pos hinit]
      exact ⟨hflag, hlen⟩
    · rw [if_neg hinit]
      by_cases hrun : s.taskRunning = true
      · rw [if_pos hrun]
        exact ⟨hflag, hlen⟩
      · rw [if_neg hrun]
        have hempty : s.activeTasks = [] := by
          cases hl : s.activeTasks with
          | nil => rfl
          | cons x xs =>
            rw [hl] at hflag
            simp at hflag
            exact absurd hflag hrun
        constructor
        · simp [hempty]
        · simp [hempty]
  | finishTask =>
    simp only [serverStep]
    by_cases hrun : s.taskRunning = true
    · rw [if_pos hrun]
      cases hl : s.activeTasks with
      | nil =>
        rw [hl] at hflag
        simp only [List.isEmpty_nil, Bool.not_true] at hflag
        rw [hflag] at hrun
        simp at hrun
      | cons x xs =>
        have hxs : xs = [] := by
          rw [hl] at hlen
          simp only [List.length_cons] at hlen
          have hz : xs.length = 0 := by omega
          exact List.length_eq_zero.mp hz
        constructor
        · simp [hl, hxs]
        · simp [hl, hxs]
    · rw [if_neg hrun]
      exact ⟨hflag, hlen⟩

/-- The busy-guard invariant holds along every request sequence. -/
theorem serverRun_preserves_inv :
    ∀ (reqs : List ServerRequest) (s : ServerState),
      ServerInv s → ServerInv (serverRun s reqs) := by
  intro reqs
  induction reqs with
  | nil =>
    intro s h
    exact h
  | cons r rest ih =>
    intro s h
    exact ih (serverStep s r).1 (serverStep_preserves_inv s r h)

/-- C6: while a task is running, a further `execute_task` request is
answered immediately with the busy error event and leaves the server state
unchanged — it is neither queued (no state component grows) nor silently
dropped (the error event is emitted) — and along every request sequence
from the initial state at most one task is ever active. -/
theorem busy_reject_single_active :
    (∀ (s : ServerState) (t : String), s.agentInit = true →
      s.taskRunning = true →
      serverStep s (.executeTask t) = (s, [.errorBusy])) ∧
    (∀ (reqs : List ServerRequest),
      (serverRun initialServerState reqs).activeTasks.length ≤ 1) := by
  constructor
  · intro s t hinit hrun
    simp only [serverStep]
    rw [if_neg (by simp [hinit]), if_pos hrun]
  · intro reqs
    exact (serverRun_preserves_inv reqs initialServerState
      ⟨rfl, by decide⟩).2

/-- C6 witness: a concrete busy server rejects a second task request with
the busy event and an unchanged state, and a concrete request sequence with
two competing task requests never has more than one active task. -/
theorem busy_reject_single_active_w :
    serverStep
      { agentInit := true, taskRunning := true, activeTasks := ["t1"] }
      (.executeTask "t2") =
      ({ agentInit := true, taskRunning := true, activeTasks := ["t1"] },
       [.errorBusy]) ∧
    (serverRun initialServerState
      [.initializeAgent, .executeTask "a", .executeTask "b",
       .finishTask, .executeTask "c"]).activeTasks.length ≤ 1 :=
  ⟨busy_reject_single_active.1
      { agentInit := true, taskRunning := true, activeTasks := ["t1"] }
      "t2" rfl rfl,
   busy_reject_single_active.2
      [.initializeAgent, .executeTask "a", .executeTask "b",
       .finishTask, .executeTask "c"]⟩

end Sisyphus
